import Mathlib

/-!
Verification of the yatube blogging API (Django/DRF application).

The data model (posts/models.py) and the request handlers
(api/views.py together with api/serializers.py and api/urls.py) are
embedded as pure functions over an explicit database state `DB`.
Machine-level concerns (SQL, HTTP parsing) are delegated by the source
to the framework; what the repository itself determines — field lists,
validator order, `on_delete` behaviour, queryset scoping, permission
checks — is translated here directly from the source files.
-/

namespace YatubeApi

/-- A row of the external user table (`get_user_model()`): a stable
primary key and a unique username. -/
structure User where
  id : Nat
  username : String
deriving DecidableEq, Repr

/-- posts/models.py `Group`: title, unique slug, description. -/
structure Group where
  id : Nat
  title : String
  slug : String
  description : String
deriving DecidableEq, Repr

/-- posts/models.py `Post`: text, automatic publication date, author
(FK to User, on_delete=CASCADE), optional image, optional group
(FK to Group, on_delete=SET_NULL, null=True). -/
structure Post where
  id : Nat
  text : String
  pubDate : Nat
  author : Nat
  image : Option String
  group : Option Nat
deriving DecidableEq, Repr

/-- posts/models.py `Comment`: author (FK to User, CASCADE), post
(FK to Post, CASCADE), text, automatic creation date. -/
structure Comment where
  id : Nat
  author : Nat
  post : Nat
  text : String
  created : Nat
deriving DecidableEq, Repr

/-- posts/models.py `Follow`: `user` is the follower, `following` the
followee; both FK to User with on_delete=CASCADE. -/
structure Follow where
  user : Nat
  following : Nat
deriving DecidableEq, Repr

/-- The persistent state: one table per model. -/
structure DB where
  users : List User
  groups : List Group
  posts : List Post
  comments : List Comment
  follows : List Follow
deriving DecidableEq, Repr

/-- Error responses the handlers produce (section 7 of the API
contract): validation errors carry a message and map to HTTP 400,
authentication/permission failures to 401/403, missing objects to 404. -/
inductive ApiError where
  | badRequest : String → ApiError
  | unauthorized : ApiError
  | forbidden : ApiError
  | notFound : ApiError
deriving DecidableEq, Repr

deriving instance DecidableEq for Except

/-- The HTTP status code of an error response. -/
def ApiError.status : ApiError → Nat
  | .badRequest _ => 400
  | .unauthorized => 401
  | .forbidden => 403
  | .notFound => 404

/-- Message of FollowSerializer.Meta.validators' UniqueTogetherValidator. -/
def dupFollowMsg : String := "Нельзя подписаться второй раз."

/-- Message raised by FollowSerializer.validate on a self-follow. -/
def selfFollowMsg : String := "Нельзя подписаться на самого себя."

/-- FollowViewSet create (views.py `FollowViewSet.perform_create` with
serializers.py `FollowSerializer`).  The serializer first resolves the
`following` slug (username) against the user table, then runs the
`Meta.validators` UniqueTogetherValidator over `(user, following)` with
`user` supplied by `CurrentUserDefault` (the requester), then the
class-level `validate` which rejects `user == following`; on success
`perform_create` saves the edge with `user=self.request.user`. -/
def createFollow (db : DB) (requester : Nat) (followingName : String) :
    Except ApiError DB :=
  match db.users.find? (fun u => u.username == followingName) with
  | none => .error (.badRequest "Объект с username не существует.")
  | some f =>
    if db.follows.any (fun e => e.user == requester && e.following == f.id) then
      .error (.badRequest dupFollowMsg)
    else if requester == f.id then
      .error (.badRequest selfFollowMsg)
    else
      .ok { db with follows := db.follows ++ [{ user := requester, following := f.id }] }

/-- The key of the `unique_user_following` constraint of Follow.Meta. -/
def followPair (e : Follow) : Nat × Nat := (e.user, e.following)

/-- Modelled from the spec: the permission class `OwnerOrReadOnly`
(api/views.py imports it from api/permission.py, whose source is not
among the files here).  Per the spec's authorization contract, safe
methods are always permitted; a mutating method needs an authenticated
requester (otherwise 401) whose identity equals the target entity's
author (otherwise 403). -/
def checkOwnerOrReadOnly (mutating : Bool) (requester : Option Nat)
    (owner : Nat) : Option ApiError :=
  if !mutating then none
  else
    match requester with
    | none => some .unauthorized
    | some r => if r == owner then none else some .forbidden

/-- A fresh primary key for a new Post row. -/
def freshPostId (db : DB) : Nat := db.posts.foldr (fun p m => max (p.id + 1) m) 1

set_option linter.unusedVariables false in
/-- PostViewSet create (views.py `PostViewSet.perform_create` with
serializers.py `PostSerializer`).  `author` is a read-only
SlugRelatedField, so `bodyAuthor` from the request body is never used;
`perform_create` saves with `author=self.request.user`.  The `group`
foreign key is writable and must reference an existing Group row. -/
def createPost (db : DB) (requester : Option Nat) (bodyText : String)
    (bodyAuthor bodyGroup : Option Nat) (bodyImage : Option String)
    (now : Nat) : Except ApiError (DB × Post) :=
  match requester with
  | none => .error .unauthorized
  | some r =>
    if bodyGroup.any (fun g => !(db.groups.any (fun gr => gr.id == g))) then
      .error (.badRequest "Недопустимый первичный ключ группы.")
    else
      let p : Post := { id := freshPostId db, text := bodyText, pubDate := now,
                        author := r, image := bodyImage, group := bodyGroup }
      .ok ({ db with posts := db.posts ++ [p] }, p)

/-- PostViewSet update (PATCH on /posts/pid/): resolve the object,
check OwnerOrReadOnly, then store the new text. -/
def updatePost (db : DB) (requester : Option Nat) (pid : Nat)
    (newText : String) : Except ApiError DB :=
  match db.posts.find? (fun p => p.id == pid) with
  | none => .error .notFound
  | some p =>
    match checkOwnerOrReadOnly true requester p.author with
    | some e => .error e
    | none => .ok { db with posts := db.posts.map (fun q =>
        if q.id == pid then { q with text := newText } else q) }

/-- PostViewSet delete (DELETE on /posts/pid/): resolve, check
OwnerOrReadOnly, then delete the row; `Comment.post` carries
on_delete=CASCADE so the post's comments are deleted with it. -/
def deletePost (db : DB) (requester : Option Nat) (pid : Nat) :
    Except ApiError DB :=
  match db.posts.find? (fun p => p.id == pid) with
  | none => .error .notFound
  | some p =>
    match checkOwnerOrReadOnly true requester p.author with
    | some e => .error e
    | none => .ok { db with
        posts := db.posts.filter (fun q => q.id != pid),
        comments := db.comments.filter (fun c => c.post != pid) }

/-- views.py `CommentViewSet.get_post`: `get_object_or_404(Post,
pk=self.kwargs.get('post_id'))`. -/
def getPost (db : DB) (postId : Nat) : Except ApiError Post :=
  match db.posts.find? (fun p => p.id == postId) with
  | none => .error .notFound
  | some p => .ok p

/-- CommentViewSet object resolution: `get_queryset` returns
`post.comments.all()` for the post of the URL's `post_id` (404 if that
post does not exist), and the comment pk is then looked up inside that
queryset only. -/
def getCommentIn (db : DB) (postId cid : Nat) : Except ApiError Comment :=
  match getPost db postId with
  | .error e => .error e
  | .ok _ =>
    match db.comments.find? (fun c => c.post == postId && c.id == cid) with
    | none => .error .notFound
    | some c => .ok c

/-- CommentViewSet list (GET /posts/post_id/comments/): the queryset of
`get_queryset`, after `get_post` has resolved the post or raised 404. -/
def listComments (db : DB) (postId : Nat) : Except ApiError (List Comment) :=
  match getPost db postId with
  | .error e => .error e
  | .ok _ => .ok (db.comments.filter (fun c => c.post == postId))

/-- CommentViewSet update (PATCH on /posts/post_id/comments/cid/). -/
def updateComment (db : DB) (requester : Option Nat) (postId cid : Nat)
    (newText : String) : Except ApiError DB :=
  match getCommentIn db postId cid with
  | .error e => .error e
  | .ok c =>
    match checkOwnerOrReadOnly true requester c.author with
    | some e => .error e
    | none => .ok { db with comments := db.comments.map (fun x =>
        if x.id == cid then { x with text := newText } else x) }

/-- CommentViewSet delete (DELETE on /posts/post_id/comments/cid/). -/
def deleteComment (db : DB) (requester : Option Nat) (postId cid : Nat) :
    Except ApiError DB :=
  match getCommentIn db postId cid with
  | .error e => .error e
  | .ok c =>
    match checkOwnerOrReadOnly true requester c.author with
    | some e => .error e
    | none => .ok { db with
        comments := db.comments.filter (fun x => x.id != cid) }

/-- Deleting a Group row: `Post.group` carries on_delete=SET_NULL,
blank/null allowed, so referencing posts survive with `group` cleared. -/
def deleteGroup (db : DB) (gid : Nat) : DB :=
  { db with
    groups := db.groups.filter (fun g => g.id != gid),
    posts := db.posts.map
      (fun p => if p.group == some gid then { p with group := none } else p) }

/-- Deleting a User row: `Post.author`, `Comment.author`, `Follow.user`
and `Follow.following` all carry on_delete=CASCADE, and deleting the
user's posts in turn cascades to the comments under those posts. -/
def deleteUser (db : DB) (uid : Nat) : DB :=
  { db with
    users := db.users.filter (fun u => u.id != uid),
    posts := db.posts.filter (fun p => p.author != uid),
    comments := db.comments.filter (fun c => c.author != uid &&
      !(db.posts.any (fun p => p.author == uid && p.id == c.post))),
    follows := db.follows.filter
      (fun e => e.user != uid && e.following != uid) }

/-- Whether `needle` is an initial segment of `hay`. -/
def leadsWith : List Char → List Char → Bool
  | [], _ => true
  | _ :: _, [] => false
  | a :: as, b :: bs => a == b && leadsWith as bs

/-- Whether `needle` occurs contiguously inside `hay`. -/
def occursIn (needle : List Char) : List Char → Bool
  | [] => needle.isEmpty
  | b :: bs => leadsWith needle (b :: bs) || occursIn needle bs

/-- Splits a search string into terms at spaces and commas, the way the
framework's SearchFilter tokenises the `?search=` query parameter. -/
def splitTermsAux : List Char → List Char → List (List Char)
  | [], acc => if acc.isEmpty then [] else [acc.reverse]
  | c :: cs, acc =>
    if c == ' ' || c == ',' then
      if acc.isEmpty then splitTermsAux cs []
      else acc.reverse :: splitTermsAux cs []
    else splitTermsAux cs (c :: acc)

/-- The search terms of a `?search=` value. -/
def searchTerms (s : String) : List (List Char) := splitTermsAux s.data []

/-- Lower-cases a character sequence. -/
def lowerList (cs : List Char) : List Char := cs.map Char.toLower

/-- The `icontains` lookup the SearchFilter builds from
`search_fields = ('following__username',)`: case-insensitive
containment of the term in the followee's username. -/
def icontainsCh (hay needle : List Char) : Bool :=
  occursIn (lowerList needle) (lowerList hay)

/-- Whether a Follow edge matches a `?search=` value: every term must
match `following__username__icontains`. -/
def followSearchMatch (db : DB) (e : Follow) (s : String) : Bool :=
  match db.users.find? (fun u => u.id == e.following) with
  | some u => (searchTerms s).all (fun t => icontainsCh u.username.data t)
  | none => false

/-- FollowViewSet list (views.py `FollowViewSet.get_queryset` plus the
SearchFilter backend): `self.request.user.followers.all()` is, by the
related_name on `Follow.user`, the set of edges whose `user` field (the
follower) is the requester; a `?search=` value then filters it. -/
def listFollows (db : DB) (requester : Nat) (search : Option String) :
    List Follow :=
  let qs := db.follows.filter (fun e => e.user == requester)
  match search with
  | none => qs
  | some s => qs.filter (fun e => followSearchMatch db e s)

/-- The search predicate exactly as the specification words it: the
followee's username contains the search string verbatim (case-sensitive)
as a substring.  Kept alongside `followSearchMatch` to compare the
spec's wording with the filter the source configures. -/
def claimSearchMatch (db : DB) (e : Follow) (s : String) : Bool :=
  match db.users.find? (fun u => u.id == e.following) with
  | some u => occursIn s.data u.username.data
  | none => false

/-- A sample database: two users, user 1 already follows user 2. -/
def dbW : DB :=
  { users := [{ id := 1, username := "alice" }, { id := 2, username := "bob" }]
  , groups := []
  , posts := []
  , comments := []
  , follows := [{ user := 1, following := 2 }] }

/-- C1: at most one Follow edge per (user, following) pair: a second
create attempt for a pair that already has an edge is rejected with the
400 validation error of the UniqueTogetherValidator, and any successful
create preserves uniqueness of the (user, following) keys. -/
theorem follow_pair_unique (db : DB) (r : Nat) (name : String)
    (hnd : (db.follows.map followPair).Nodup) :
    (∀ f : User, db.users.find? (fun u => u.username == name) = some f →
      ({ user := r, following := f.id } : Follow) ∈ db.follows →
      createFollow db r name = .error (.badRequest dupFollowMsg) ∧
      (ApiError.badRequest dupFollowMsg).status = 400) ∧
    (∀ db' : DB, createFollow db r name = .ok db' →
      (db'.follows.map followPair).Nodup) := by
  constructor
  · intro f hf hmem
    have hany : db.follows.any (fun e => e.user == r && e.following == f.id) = true := by
      exact List.any_eq_true.2 ⟨_, hmem, by simp⟩
    simp only [createFollow, hf, hany, if_true]
    exact ⟨trivial, rfl⟩
  · intro db' hok
    simp only [createFollow] at hok
    split at hok
    · exact absurd hok (by simp)
    · rename_i f hf
      split at hok
      · exact absurd hok (by simp)
      · rename_i hany
        split at hok
        · exact absurd hok (by simp)
        · have hdb' : db' = { db with
              follows := db.follows ++ [{ user := r, following := f.id }] } :=
            (Except.ok.inj hok).symm
          subst hdb'
          simp only [List.map_append, List.map_cons, List.map_nil]
          rw [List.nodup_append]
          refine ⟨hnd, List.nodup_singleton _, ?_⟩
          intro p hp hq
          simp only [List.mem_singleton] at hq
          subst hq
          rcases List.mem_map.1 hp with ⟨e, he, hpe⟩
          have h1 : e.user = r := congrArg Prod.fst hpe
          have h2 : e.following = f.id := congrArg Prod.snd hpe
          have : (fun e : Follow => e.user == r && e.following == f.id) e = true := by
            simp [h1, h2]
          exact hany (List.any_eq_true.2 ⟨e, he, this⟩)

/-- C1 witness: in `dbW`, user 1 already follows user 2; a second
attempt is rejected and successful creates keep the pair keys unique. -/
theorem follow_pair_unique_witness :
    ((dbW.follows.map followPair).Nodup) ∧
    ((∀ f : User, dbW.users.find? (fun u => u.username == "bob") = some f →
      ({ user := 1, following := f.id } : Follow) ∈ dbW.follows →
      createFollow dbW 1 "bob" = .error (.badRequest dupFollowMsg) ∧
      (ApiError.badRequest dupFollowMsg).status = 400) ∧
    (∀ db' : DB, createFollow dbW 1 "bob" = .ok db' →
      (db'.follows.map followPair).Nodup)) :=
  ⟨by decide, follow_pair_unique dbW 1 "bob" (by decide)⟩

/-- C2: a create-follow attempt where the requester equals the followee
is rejected with the 400 validation error "Нельзя подписаться на самого
себя." (raised by FollowSerializer.validate), no edge is stored, and
successful creates never introduce a self edge (so the no-self-edge
hypothesis is an invariant of the operation). -/
theorem self_follow_rejected (db : DB) (u : User) (name : String)
    (hu : db.users.find? (fun x => x.username == name) = some u)
    (hself : ∀ e ∈ db.follows, e.user ≠ e.following) :
    (createFollow db u.id name = .error (.badRequest selfFollowMsg) ∧
     (ApiError.badRequest selfFollowMsg).status = 400) ∧
    (∀ db' : DB, createFollow db u.id name = .ok db' → False) ∧
    (∀ v : Nat, ∀ db' : DB, createFollow db v name = .ok db' →
      ∀ e ∈ db'.follows, e.user ≠ e.following) := by
  have hany : db.follows.any
      (fun e => e.user == u.id && e.following == u.id) = false := by
    rw [List.any_eq_false]
    intro e he
    simp only [Bool.and_eq_true, beq_iff_eq, not_and]
    intro h1 h2
    exact absurd (h1.trans h2.symm) (hself e he)
  have hmain : createFollow db u.id name = .error (.badRequest selfFollowMsg) := by
    simp only [createFollow, hu, hany, Bool.false_eq_true, if_false, beq_self_eq_true,
      if_true]
  refine ⟨⟨hmain, rfl⟩, ?_, ?_⟩
  · intro db' hok
    rw [hmain] at hok
    exact absurd hok (by simp)
  · intro v db' hok
    simp only [createFollow, hu] at hok
    split at hok
    · exact absurd hok (by simp)
    · split at hok
      · exact absurd hok (by simp)
      · rename_i hvf
        have hdb' : db' = { db with
            follows := db.follows ++ [{ user := v, following := u.id }] } :=
          (Except.ok.inj hok).symm
        subst hdb'
        intro e he
        rcases List.mem_append.1 he with h | h
        · exact hself e h
        · simp only [List.mem_singleton] at h
          subst h
          simpa using (by simpa using hvf : ¬ v = u.id)

/-- C2 witness: user 2 ("bob") trying to follow "bob" in `dbW` is
rejected with the self-follow message. -/
theorem self_follow_rejected_witness :
    (dbW.users.find? (fun x => x.username == "bob") =
      some { id := 2, username := "bob" }) ∧
    ((∀ e ∈ dbW.follows, e.user ≠ e.following)) ∧
    ((createFollow dbW 2 "bob" = .error (.badRequest selfFollowMsg) ∧
      (ApiError.badRequest selfFollowMsg).status = 400) ∧
     (∀ db' : DB, createFollow dbW 2 "bob" = .ok db' → False) ∧
     (∀ v : Nat, ∀ db' : DB, createFollow dbW v "bob" = .ok db' →
       ∀ e ∈ db'.follows, e.user ≠ e.following)) :=
  ⟨by decide, by decide,
    self_follow_rejected dbW { id := 2, username := "bob" } "bob"
      (by decide) (by decide)⟩

/-- A sample database with posts and a comment: post 1 and comment 1
belong to user 1, post 2 (in group 7) belongs to user 2. -/
def dbP : DB :=
  { users := [{ id := 1, username := "alice" }, { id := 2, username := "bob" }]
  , groups := [{ id := 7, title := "g", slug := "g", description := "d" }]
  , posts := [{ id := 1, text := "hi", pubDate := 0, author := 1,
                image := none, group := none },
              { id := 2, text := "yo", pubDate := 1, author := 2,
                image := none, group := some 7 }]
  , comments := [{ id := 1, author := 1, post := 1, text := "c", created := 0 }]
  , follows := [] }

/-- C3: a successfully created Post stores the requester as author, the
value in `bodyAuthor` being irrelevant: the same request with any other
body author yields the same result. -/
theorem post_author_is_requester (db : DB) (r : Nat) (t : String)
    (bodyAuthor bodyGroup : Option Nat) (img : Option String) (now : Nat)
    (db' : DB) (p : Post)
    (hok : createPost db (some r) t bodyAuthor bodyGroup img now = .ok (db', p)) :
    p.author = r ∧ p ∈ db'.posts ∧
    ∀ a' : Option Nat,
      createPost db (some r) t a' bodyGroup img now = .ok (db', p) := by
  simp only [createPost] at hok
  split at hok
  · exact absurd hok (by simp)
  · rename_i hg
    cases hok
    refine ⟨rfl, List.mem_append_right _ (List.mem_singleton_self _), ?_⟩
    intro a'
    simp only [createPost, hg, Bool.false_eq_true, if_false]

/-- C3 witness: user 1 creates a post supplying author 99 in the body;
the stored post carries author 1. -/
theorem post_author_is_requester_witness :
    (createPost dbP (some 1) "hello" (some 99) none none 5 =
      .ok ({ dbP with posts := dbP.posts ++
        [{ id := 3, text := "hello", pubDate := 5, author := 1,
           image := none, group := none }] },
        { id := 3, text := "hello", pubDate := 5, author := 1,
          image := none, group := none })) ∧
    (({ id := 3, text := "hello", pubDate := 5, author := 1,
        image := none, group := none } : Post).author = 1 ∧
     ({ id := 3, text := "hello", pubDate := 5, author := 1,
        image := none, group := none } : Post) ∈
       ({ dbP with posts := dbP.posts ++
         [{ id := 3, text := "hello", pubDate := 5, author := 1,
            image := none, group := none }] } : DB).posts ∧
     ∀ a' : Option Nat,
       createPost dbP (some 1) "hello" a' none none 5 =
         .ok ({ dbP with posts := dbP.posts ++
           [{ id := 3, text := "hello", pubDate := 5, author := 1,
              image := none, group := none }] },
           { id := 3, text := "hello", pubDate := 5, author := 1,
             image := none, group := none })) :=
  ⟨by decide,
    post_author_is_requester dbP 1 "hello" (some 99) none none 5 _ _ (by decide)⟩

/-- On a mutating request, a requester who is not the owner is turned
away by OwnerOrReadOnly: anonymous with 401, authenticated with 403. -/
theorem checkOwner_nonowner (r : Option Nat) (a : Nat) (hr : r ≠ some a) :
    checkOwnerOrReadOnly true r a = some .unauthorized ∨
    checkOwnerOrReadOnly true r a = some .forbidden := by
  cases r with
  | none => exact Or.inl rfl
  | some v =>
    refine Or.inr ?_
    have hv : (v == a) = false := by
      simp only [beq_eq_false_iff_ne]
      intro h
      exact hr (by rw [h])
    simp [checkOwnerOrReadOnly, hv]

/-- C4: PATCH and DELETE on a Post or Comment by a requester other than
its author answer 401 (anonymous) or 403 (authenticated non-author) and
produce no new database state. -/
theorem non_author_mutation_rejected (db : DB) (r : Option Nat)
    (p : Post) (pid : Nat) (c : Comment) (cpid cid : Nat) (t : String)
    (hp : db.posts.find? (fun x => x.id == pid) = some p)
    (hrp : r ≠ some p.author)
    (hc : getCommentIn db cpid cid = .ok c)
    (hrc : r ≠ some c.author) :
    (∃ e, updatePost db r pid t = .error e ∧
      (e.status = 401 ∨ e.status = 403)) ∧
    (∃ e, deletePost db r pid = .error e ∧
      (e.status = 401 ∨ e.status = 403)) ∧
    (∃ e, updateComment db r cpid cid t = .error e ∧
      (e.status = 401 ∨ e.status = 403)) ∧
    (∃ e, deleteComment db r cpid cid = .error e ∧
      (e.status = 401 ∨ e.status = 403)) := by
  have hpost := checkOwner_nonowner r p.author hrp
  have hcom := checkOwner_nonowner r c.author hrc
  refine ⟨?_, ?_, ?_, ?_⟩
  · rcases hpost with h | h
    · exact ⟨.unauthorized, by simp only [updatePost, hp, h], Or.inl rfl⟩
    · exact ⟨.forbidden, by simp only [updatePost, hp, h], Or.inr rfl⟩
  · rcases hpost with h | h
    · exact ⟨.unauthorized, by simp only [deletePost, hp, h], Or.inl rfl⟩
    · exact ⟨.forbidden, by simp only [deletePost, hp, h], Or.inr rfl⟩
  · rcases hcom with h | h
    · exact ⟨.unauthorized, by simp only [updateComment, hc, h], Or.inl rfl⟩
    · exact ⟨.forbidden, by simp only [updateComment, hc, h], Or.inr rfl⟩
  · rcases hcom with h | h
    · exact ⟨.unauthorized, by simp only [deleteComment, hc, h], Or.inl rfl⟩
    · exact ⟨.forbidden, by simp only [deleteComment, hc, h], Or.inr rfl⟩

/-- C4 witness: user 2 cannot modify post 1 or comment 1, both owned by
user 1. -/
theorem non_author_mutation_rejected_witness :
    (dbP.posts.find? (fun x => x.id == 1) =
      some { id := 1, text := "hi", pubDate := 0, author := 1,
             image := none, group := none }) ∧
    (getCommentIn dbP 1 1 =
      .ok { id := 1, author := 1, post := 1, text := "c", created := 0 }) ∧
    ((∃ e, updatePost dbP (some 2) 1 "x" = .error e ∧
       (e.status = 401 ∨ e.status = 403)) ∧
     (∃ e, deletePost dbP (some 2) 1 = .error e ∧
       (e.status = 401 ∨ e.status = 403)) ∧
     (∃ e, updateComment dbP (some 2) 1 1 "x" = .error e ∧
       (e.status = 401 ∨ e.status = 403)) ∧
     (∃ e, deleteComment dbP (some 2) 1 1 = .error e ∧
       (e.status = 401 ∨ e.status = 403))) :=
  ⟨by decide, by decide,
    non_author_mutation_rejected dbP (some 2)
      { id := 1, text := "hi", pubDate := 0, author := 1,
        image := none, group := none } 1
      { id := 1, author := 1, post := 1, text := "c", created := 0 } 1 1 "x"
      (by decide) (by decide) (by decide) (by decide)⟩

/-- C5: after a successful DELETE of a post, no comment whose parent is
that post remains; the other posts and the comments of other posts
survive. -/
theorem delete_post_cascades_comments (db : DB) (r : Option Nat)
    (pid : Nat) (db' : DB) (hok : deletePost db r pid = .ok db') :
    (∀ c ∈ db'.comments, c.post ≠ pid) ∧
    (∀ q ∈ db'.posts, q.id ≠ pid) ∧
    (∀ c ∈ db.comments, c.post ≠ pid → c ∈ db'.comments) ∧
    (∀ q ∈ db.posts, q.id ≠ pid → q ∈ db'.posts) := by
  simp only [deletePost] at hok
  split at hok
  · exact absurd hok (by simp)
  · split at hok
    · exact absurd hok (by simp)
    · cases hok
      refine ⟨?_, ?_, ?_, ?_⟩
      · intro c hcmem
        have := (List.mem_filter.1 hcmem).2
        simpa using this
      · intro q hqmem
        have := (List.mem_filter.1 hqmem).2
        simpa using this
      · intro c hcmem hne
        exact List.mem_filter.2 ⟨hcmem, by simpa using hne⟩
      · intro q hqmem hne
        exact List.mem_filter.2 ⟨hqmem, by simpa using hne⟩

/-- C5 witness: user 1 deletes post 1 of `dbP`; comment 1 (attached to
post 1) disappears with it and post 2 survives. -/
theorem delete_post_cascades_comments_witness :
    (deletePost dbP (some 1) 1 = .ok { dbP with
      posts := [{ id := 2, text := "yo", pubDate := 1, author := 2,
                  image := none, group := some 7 }],
      comments := [] }) ∧
    ((∀ c ∈ ([] : List Comment), c.post ≠ 1) ∧
     (∀ q ∈ [({ id := 2, text := "yo", pubDate := 1, author := 2,
                image := none, group := some 7 } : Post)], q.id ≠ 1) ∧
     (∀ c ∈ dbP.comments, c.post ≠ 1 → c ∈ ([] : List Comment)) ∧
     (∀ q ∈ dbP.posts, q.id ≠ 1 →
        q ∈ [({ id := 2, text := "yo", pubDate := 1, author := 2,
                image := none, group := some 7 } : Post)])) := by
  refine ⟨by decide, ?_⟩
  have h := delete_post_cascades_comments dbP (some 1) 1
    { dbP with
      posts := [{ id := 2, text := "yo", pubDate := 1, author := 2,
                  image := none, group := some 7 }],
      comments := [] } (by decide)
  exact h

/-- C6: deleting a Group keeps every Post: the list keeps its length,
each post keeps its id, text, date, author and image, a post that
referenced the deleted group now has `group = none` and any other post
keeps its group; afterwards no post references the deleted group and
the group row itself is gone. -/
theorem delete_group_nulls_posts (db : DB) (gid : Nat) :
    ((deleteGroup db gid).posts.length = db.posts.length) ∧
    (∀ p ∈ db.posts, ∃ q ∈ (deleteGroup db gid).posts,
      q.id = p.id ∧ q.text = p.text ∧ q.pubDate = p.pubDate ∧
      q.author = p.author ∧ q.image = p.image ∧
      q.group = (if p.group = some gid then none else p.group)) ∧
    (∀ q ∈ (deleteGroup db gid).posts, q.group ≠ some gid) ∧
    (∀ g ∈ (deleteGroup db gid).groups, g.id ≠ gid) := by
  refine ⟨List.length_map _ _, ?_, ?_, ?_⟩
  · intro p hp
    refine ⟨if p.group == some gid then { p with group := none } else p,
      List.mem_map.2 ⟨p, hp, rfl⟩, ?_⟩
    by_cases h : p.group = some gid
    · simp [h]
    · simp [h]
  · intro q hq
    rcases List.mem_map.1 hq with ⟨p, _, hpq⟩
    by_cases h : p.group = some gid
    · simp only [h, beq_self_eq_true, if_true] at hpq
      rw [← hpq]
      simp
    · have hb : (p.group == some gid) = false := by
        simpa using h
      simp only [hb, Bool.false_eq_true, if_false] at hpq
      rw [← hpq]
      exact h
  · intro g hg
    have := (List.mem_filter.1 hg).2
    simpa using this

/-- C6 witness: deleting group 7 of `dbP` keeps both posts, clears the
group of post 2, and removes the group row. -/
theorem delete_group_nulls_posts_witness :
    ((deleteGroup dbP 7).posts.length = dbP.posts.length) ∧
    (∀ p ∈ dbP.posts, ∃ q ∈ (deleteGroup dbP 7).posts,
      q.id = p.id ∧ q.text = p.text ∧ q.pubDate = p.pubDate ∧
      q.author = p.author ∧ q.image = p.image ∧
      q.group = (if p.group = some 7 then none else p.group)) ∧
    (∀ q ∈ (deleteGroup dbP 7).posts, q.group ≠ some 7) ∧
    (∀ g ∈ (deleteGroup dbP 7).groups, g.id ≠ 7) :=
  delete_group_nulls_posts dbP 7

/-- C7: a request for the comment list of a post id with no Post row is
answered with 404. -/
theorem comments_missing_post_404 (db : DB) (pid : Nat)
    (hnone : db.posts.find? (fun p => p.id == pid) = none) :
    listComments db pid = .error .notFound ∧
    ApiError.notFound.status = 404 := by
  constructor
  · simp only [listComments, getPost, hnone]
  · rfl

/-- C7 witness: `dbP` has no post 999, so listing its comments gives
404. -/
theorem comments_missing_post_404_witness :
    (dbP.posts.find? (fun p => p.id == 999) = none) ∧
    (listComments dbP 999 = .error .notFound ∧
     ApiError.notFound.status = 404) :=
  ⟨by decide, comments_missing_post_404 dbP 999 (by decide)⟩

/-- C9: deleting a User removes every Post and Comment authored by that
user and every Follow edge at either endpoint; posts of other authors
survive. -/
theorem delete_user_cascades (db : DB) (uid : Nat) :
    (∀ p ∈ (deleteUser db uid).posts, p.author ≠ uid) ∧
    (∀ c ∈ (deleteUser db uid).comments, c.author ≠ uid) ∧
    (∀ e ∈ (deleteUser db uid).follows, e.user ≠ uid ∧ e.following ≠ uid) ∧
    (∀ u ∈ (deleteUser db uid).users, u.id ≠ uid) ∧
    (∀ p ∈ db.posts, p.author ≠ uid → p ∈ (deleteUser db uid).posts) := by
  refine ⟨?_, ?_, ?_, ?_, ?_⟩
  · intro p hp
    have := (List.mem_filter.1 hp).2
    simpa using this
  · intro c hc
    have := (List.mem_filter.1 hc).2
    simp only [Bool.and_eq_true, bne_iff_ne, ne_eq] at this
    exact this.1
  · intro e he
    have := (List.mem_filter.1 he).2
    simpa using this
  · intro u hu
    have := (List.mem_filter.1 hu).2
    simpa using this
  · intro p hp hne
    exact List.mem_filter.2 ⟨hp, by simpa using hne⟩

/-- C9 witness: deleting user 1 of `dbP` removes post 1 and comment 1
and keeps post 2. -/
theorem delete_user_cascades_witness :
    (∀ p ∈ (deleteUser dbP 1).posts, p.author ≠ 1) ∧
    (∀ c ∈ (deleteUser dbP 1).comments, c.author ≠ 1) ∧
    (∀ e ∈ (deleteUser dbP 1).follows, e.user ≠ 1 ∧ e.following ≠ 1) ∧
    (∀ u ∈ (deleteUser dbP 1).users, u.id ≠ 1) ∧
    (∀ p ∈ dbP.posts, p.author ≠ 1 → p ∈ (deleteUser dbP 1).posts) :=
  delete_user_cascades dbP 1

/-- C10: the comment handlers resolve every operation through the post
id of the URL: a comment of another post is invisible (404) under this
post's path, and with a nonexistent post id every operation — retrieve,
update, delete, list — answers 404. -/
theorem comment_scoped_by_post (db : DB) (c : Comment) (b : Nat)
    (r : Option Nat) (t : String)
    (hnd : (db.comments.map Comment.id).Nodup)
    (hc : c ∈ db.comments)
    (hb : c.post ≠ b) :
    (getCommentIn db b c.id = .error .notFound ∧
     updateComment db r b c.id t = .error .notFound ∧
     deleteComment db r b c.id = .error .notFound) ∧
    (∀ pid cid : Nat, db.posts.find? (fun p => p.id == pid) = none →
      getCommentIn db pid cid = .error .notFound ∧
      updateComment db r pid cid t = .error .notFound ∧
      deleteComment db r pid cid = .error .notFound ∧
      listComments db pid = .error .notFound) := by
  have hfind : db.comments.find? (fun x => x.post == b && x.id == c.id) = none := by
    rw [List.find?_eq_none]
    intro x hx hcontra
    simp only [Bool.and_eq_true, beq_iff_eq] at hcontra
    have hxc : x = c := List.inj_on_of_nodup_map hnd hx hc hcontra.2
    rw [hxc] at hcontra
    exact hb hcontra.1
  have hget : getCommentIn db b c.id = .error .notFound := by
    cases hpb : db.posts.find? (fun p => p.id == b) with
    | none => simp [getCommentIn, getPost, hpb]
    | some p => simp [getCommentIn, getPost, hpb, hfind]
  refine ⟨⟨hget, ?_, ?_⟩, ?_⟩
  · simp only [updateComment, hget]
  · simp only [deleteComment, hget]
  · intro pid cid hnone
    have hget' : getCommentIn db pid cid = .error .notFound := by
      simp [getCommentIn, getPost, hnone]
    refine ⟨hget', ?_, ?_, ?_⟩
    · simp only [updateComment, hget']
    · simp only [deleteComment, hget']
    · simp [listComments, getPost, hnone]

/-- C10 witness: comment 1 lives under post 1 of `dbP`; through post
2's path it is 404, and under the nonexistent post 999 every comment
operation is 404. -/
theorem comment_scoped_by_post_witness :
    ((dbP.comments.map Comment.id).Nodup) ∧
    (({ id := 1, author := 1, post := 1, text := "c", created := 0 } :
        Comment) ∈ dbP.comments) ∧
    (getCommentIn dbP 2 1 = .error .notFound ∧
     updateComment dbP (some 1) 2 1 "x" = .error .notFound ∧
     deleteComment dbP (some 1) 2 1 = .error .notFound) ∧
    (getCommentIn dbP 999 1 = .error .notFound ∧
     updateComment dbP (some 1) 999 1 "x" = .error .notFound ∧
     deleteComment dbP (some 1) 999 1 = .error .notFound ∧
     listComments dbP 999 = .error .notFound) :=
  ⟨by decide, by decide,
    (comment_scoped_by_post dbP
      { id := 1, author := 1, post := 1, text := "c", created := 0 } 2
      (some 1) "x" (by decide) (by decide) (by decide)).1,
    (comment_scoped_by_post dbP
      { id := 1, author := 1, post := 1, text := "c", created := 0 } 2
      (some 1) "x" (by decide) (by decide) (by decide)).2 999 1 (by decide)⟩

/-- A sample database for the follow search: user 1 follows "Alice"
(user 2) and "bob" (user 3); user 4 follows user 1. -/
def dbS : DB :=
  { users := [{ id := 1, username := "me" }, { id := 2, username := "Alice" },
              { id := 3, username := "bob" }, { id := 4, username := "eve" }]
  , groups := []
  , posts := []
  , comments := []
  , follows := [{ user := 1, following := 2 }, { user := 1, following := 3 },
                { user := 4, following := 1 }] }

/-- C8 counterexample: searching "alice" as user 1 returns the edge to
"Alice" although "alice" is not a verbatim substring of "Alice" — the
configured lookup is case-insensitive, so the listed set is not exactly
the set of edges whose followee's username contains the search string
as a (case-sensitive) substring. -/
theorem follow_search_not_verbatim :
    ({ user := 1, following := 2 } : Follow) ∈
      listFollows dbS 1 (some "alice") ∧
    claimSearchMatch dbS { user := 1, following := 2 } "alice" = false := by
  decide

/-- C8 (amended): listing follows returns exactly the edges whose
follower (`user` field) is the requester, and under a `?search=` value
exactly those of these edges for which every search term occurs
case-insensitively in the followee's username. -/
theorem follow_list_scope (db : DB) (r : Nat) (s : String) (e : Follow) :
    (e ∈ listFollows db r none ↔ e ∈ db.follows ∧ e.user = r) ∧
    (e ∈ listFollows db r (some s) ↔
      e ∈ db.follows ∧ e.user = r ∧
      ∃ u : User, db.users.find? (fun x => x.id == e.following) = some u ∧
        ∀ t ∈ searchTerms s,
          occursIn (lowerList t) (lowerList u.username.data) = true) := by
  constructor
  · simp [listFollows, List.mem_filter]
  · simp only [listFollows, List.mem_filter]
    constructor
    · rintro ⟨⟨he, hu⟩, hm⟩
      refine ⟨he, by simpa using hu, ?_⟩
      simp only [followSearchMatch] at hm
      cases hf : db.users.find? (fun x => x.id == e.following) with
      | none => rw [hf] at hm; exact absurd hm (by simp)
      | some u =>
        rw [hf] at hm
        refine ⟨u, rfl, ?_⟩
        intro t ht
        have := List.all_eq_true.1 hm t ht
        simpa [icontainsCh] using this
    · rintro ⟨he, hu, u, hf, hall⟩
      refine ⟨⟨he, by simpa using hu⟩, ?_⟩
      simp only [followSearchMatch, hf]
      rw [List.all_eq_true]
      intro t ht
      simpa [icontainsCh] using hall t ht

/-- C8 witness: the amended description instantiated in `dbS` for the
edge from user 1 to "Alice" under the search value "alice". -/
theorem follow_list_scope_witness :
    (({ user := 1, following := 2 } : Follow) ∈ listFollows dbS 1 none ↔
      ({ user := 1, following := 2 } : Follow) ∈ dbS.follows ∧
      ({ user := 1, following := 2 } : Follow).user = 1) ∧
    (({ user := 1, following := 2 } : Follow) ∈
        listFollows dbS 1 (some "alice") ↔
      ({ user := 1, following := 2 } : Follow) ∈ dbS.follows ∧
      ({ user := 1, following := 2 } : Follow).user = 1 ∧
      ∃ u : User, dbS.users.find?
          (fun x => x.id == ({ user := 1, following := 2 } : Follow).following)
          = some u ∧
        ∀ t ∈ searchTerms "alice",
          occursIn (lowerList t) (lowerList u.username.data) = true) :=
  follow_list_scope dbS 1 "alice" { user := 1, following := 2 }

end YatubeApi
